import Mathlib

/-!
Verification of the catch-rate calculator (src/catch_calculator.py).

The program is a single linear computation over floating-point scalars:
global constants, a level-coefficient (CPM) table, a throw-tier table,
four pure arithmetic functions (calc_modi, calc_catch, calc_avg,
calc_throws), two formatting helpers (round_catch, round_avg) and a
main routine that prints a fixed table.  The embedding below translates
the Python floats to exact real numbers: every constant in the source is
a decimal literal, hence an exact rational, and the arithmetic chain is
modelled over ℝ with Real.rpow for the non-integer exponentiations and
Real.log for the logarithms.  Python's round-half-to-even builtin round
is modelled by pyround below.
-/

namespace BirdCalc

noncomputable section

/-- GLOBALS from the source: `BASE_RATE = 0.003` (galarian legendary trio). -/
def BASE_RATE : ℝ := 0.003

/-- `BERRY = 2.5` (Razzberry). -/
def BERRY : ℝ := 2.5

/-- `CURVE = 1.7` (Curveball). -/
def CURVE : ℝ := 1.7

/-- `ENCOUNTER = 1` (Wild Encounter). -/
def ENCOUNTER : ℝ := 1

/-- `MEDAL = 1.4` (Platinum Medal(s)). -/
def MEDAL : ℝ := 1.4

/-- `BALL = 2` (Ultra Ball). -/
def BALL : ℝ := 2

/-- `SUCCESS_PERC = 0.99` (desired success chance after N throws). -/
def SUCCESS_PERC : ℝ := 0.99

/-- `P_MIN_SUCCESS_PERC = 1 - SUCCESS_PERC`. -/
def P_MIN_SUCCESS_PERC : ℝ := 1 - SUCCESS_PERC

/-- The fixed level set of the program: the keys of the `CPM` dict and of
the `levels` list in `main` (the strings 1, 10, 20, 30). -/
inductive Level
  | L1
  | L10
  | L20
  | L30
deriving DecidableEq

/-- The `CPM` dict: maps each pokemon level to its CPM number. -/
def CPM : Level → ℝ
  | Level.L1 => 0.094
  | Level.L10 => 0.4225
  | Level.L20 => 0.5974
  | Level.L30 => 0.7317

/-- The four throw-quality identifiers, the keys of the `THROW` dict
(the source spells the last one EXCELENT). -/
inductive Tier
  | NONE
  | NICE
  | GREAT
  | EXCELENT
deriving DecidableEq

/-- The `THROW` dict: maps the throw multiplier to each throw level. -/
def THROW : Tier → ℝ
  | Tier.NONE => 1
  | Tier.NICE => 1.2
  | Tier.GREAT => 1.5
  | Tier.EXCELENT => 1.9

/-- `calc_modi()`: computes
`modifier = BALL * BERRY * CURVE * MEDAL * ENCOUNTER` and returns the four
per-tier modifiers `modifier * THROW[t]` as a tuple
(NONE, NICE, GREAT, EXCELENT). -/
def calc_modi : ℝ × ℝ × ℝ × ℝ :=
  let modifier := BALL * BERRY * CURVE * MEDAL * ENCOUNTER
  let modifier_none := modifier * THROW Tier.NONE
  let modifier_nice := modifier * THROW Tier.NICE
  let modifier_great := modifier * THROW Tier.GREAT
  let modifier_excelent := modifier * THROW Tier.EXCELENT
  (modifier_none, modifier_nice, modifier_great, modifier_excelent)

/-- `calc_catch(CPM)`: computes `catch_p = 1 - BASE_RATE / (2 * CPM)` and
returns the four probabilities `1 - catch_p ** modifier`, one per throw
tier, as a tuple (NONE, NICE, GREAT, EXCELENT).  The Python `**` on
positive floats is real exponentiation, embedded as Real.rpow. -/
def calc_catch (CPM : ℝ) : ℝ × ℝ × ℝ × ℝ :=
  let m := calc_modi
  let catch_p := 1 - BASE_RATE / (2 * CPM)
  let catch_none := 1 - catch_p ^ m.1
  let catch_nice := 1 - catch_p ^ m.2.1
  let catch_great := 1 - catch_p ^ m.2.2.1
  let catch_excelent := 1 - catch_p ^ m.2.2.2
  (catch_none, catch_nice, catch_great, catch_excelent)

/-- Component of a 4-tuple of per-tier values selected by throw tier
(the tuples in the source are always ordered NONE, NICE, GREAT,
EXCELENT). -/
def tierGet (q : ℝ × ℝ × ℝ × ℝ) : Tier → ℝ
  | Tier.NONE => q.1
  | Tier.NICE => q.2.1
  | Tier.GREAT => q.2.2.1
  | Tier.EXCELENT => q.2.2.2

/-- `calc_avg(p_none, p_nice, p_great, p_excelent)`: the average number of
throws needed for each throw tier, `n = 1/p`. -/
def calc_avg (p_none p_nice p_great p_excelent : ℝ) : ℝ × ℝ × ℝ × ℝ :=
  (1 / p_none, 1 / p_nice, 1 / p_great, 1 / p_excelent)

/-- `calc_throws(catch_rate)`: number of pokeballs needed for a
SUCCESS_PERC chance of a catch.  If the rate is 0 the source replaces it
by BASE_RATE, then returns
`log(P_MIN_SUCCESS_PERC) / log(1 - catch_rate)`. -/
def calc_throws (catch_rate : ℝ) : ℝ :=
  let cr := if catch_rate = 0 then BASE_RATE else catch_rate
  let break_out_rate := 1 - cr
  Real.log P_MIN_SUCCESS_PERC / Real.log break_out_rate

/-- Python's builtin one-argument `round`: round to the nearest integer,
ties to even.  On a tie (fractional part exactly one half) the result is
the even neighbour, obtained as twice the rounded half; otherwise it is
the ordinary nearest integer (Mathlib's `round`). -/
def pyround (x : ℝ) : ℤ :=
  if Int.fract x = 1 / 2 then 2 * round (x / 2) else round x

/-- `round_catch(prob)`: format the probability as a whole percentage,
`str(round(prob * 100)) + ' %'`. -/
def round_catch (prob : ℝ) : String :=
  toString (pyround (prob * 100)) ++ " %"

/-- `round_avg(average)`: format the average, `str(round(average)) + " Av."`. -/
def round_avg (average : ℝ) : String :=
  toString (pyround average) ++ " Av."

end

end BirdCalc

namespace BirdCalc

noncomputable section

/-- Embeds Python's `str(BASE_RATE)` in the header of `main`: the float
`0.003` prints as the decimal text 0.003. -/
def BASE_RATE_STR : String := "0.003"

/-- The level identifier as the string used in the `levels` list of
`main`. -/
def levelName : Level → String
  | Level.L1 => "1"
  | Level.L10 => "10"
  | Level.L20 => "20"
  | Level.L30 => "30"

/-- The payload of the first `print` of `main`: the header block. -/
def header_block : String :=
  "--------------------------\n"
  ++ "Catching: " ++ "Galarian Bird" ++ "\n"
  ++ "Galarian Bird" ++ " has a base catch rate of: " ++ BASE_RATE_STR ++ "\n"
  ++ "Each cell indicates both the percentage chance and the average number of throws for a successful catch.\n"

/-- The payload of the second `print` of `main`: the column headers. -/
def column_header_block : String :=
  "\t\tNONE\t\t\tNICE\t\t\tGREAT\t\t\tEXCELENT\t\tFor a "
  ++ toString (pyround (SUCCESS_PERC * 100)) ++ "%" ++ " catch chance:\n"
  ++ "\t    __________________________________________________________________________________________________________________________________________________________________"

/-- The per-level row label printed with no trailing newline: level 1
gets four blanks before the bar, the other levels three. -/
def row_prefix (level : Level) : String :=
  if levelName level = "1" then "level " ++ levelName level ++ "    |"
  else "level " ++ levelName level ++ "   |"

/-- One table cell as `main` assembles it:
`round_catch(catch) + " | " + round_avg(avg)` (catch is a reserved word
here, so the first argument is named prob). -/
def table_cell (prob avg : ℝ) : String :=
  round_catch prob ++ " | " ++ round_avg avg

/-- One full table line of `main` for a given level (the row-label print
with `end=` suppressing its newline, concatenated with the data print):
the four cells, then the throws needed for a SUCCESS_PERC catch chance
with EXCELENT and with NONE throws. -/
def row_string (level : Level) : String :=
  let c := calc_catch (CPM level)
  let a := calc_avg c.1 c.2.1 c.2.2.1 c.2.2.2
  let e_throws := calc_throws c.2.2.2
  let n_throws := calc_throws c.1
  row_prefix level ++ "\t" ++ table_cell c.1 a.1
  ++ "\t\t" ++ table_cell c.2.1 a.2.1
  ++ "\t\t" ++ table_cell c.2.2.1 a.2.2.1
  ++ "\t\t" ++ table_cell c.2.2.2 a.2.2.2
  ++ "\t\t" ++ toString (pyround e_throws) ++ " EXCELENT throws / "
  ++ toString (pyround n_throws) ++ " NORMAL throws"

/-- The payload of the final `print` of `main`: the disclaimer block. -/
def disclaimer_block : String :=
  "\nThis calculation assumes:\n"
  ++ " * Golden RazzBerry\n"
  ++ " * Curveball Throw\n"
  ++ " * Ultra Ball\n"
  ++ " * Platinum Catch Medal(s)"

/-- Everything the program writes to standard output: each `print`
appends a newline to its payload, the loop runs over the `levels` list
in order, and the trailing `print()` at module level emits one final
newline. -/
def main_output : String :=
  header_block ++ "\n"
  ++ column_header_block ++ "\n"
  ++ row_string Level.L1 ++ "\n"
  ++ row_string Level.L10 ++ "\n"
  ++ row_string Level.L20 ++ "\n"
  ++ row_string Level.L30 ++ "\n"
  ++ disclaimer_block ++ "\n"
  ++ "\n"

/-- One execution of the program.  The source reads no input (the
interactive path is commented out), consults no clock and uses no
randomness, so a run is a function of nothing but the baked-in
constants; the run index is a dummy. -/
def program_run (_run : Unit) : String := main_output

end

end BirdCalc

namespace BirdCalc

noncomputable section

lemma calc_modi_eq : calc_modi = (11.9, 14.28, 17.85, 22.61) := by
  simp only [calc_modi, BALL, BERRY, CURVE, MEDAL, ENCOUNTER, THROW]
  norm_num

lemma calc_catch_tier (c : ℝ) (t : Tier) :
    tierGet (calc_catch c) t =
      1 - (1 - BASE_RATE / (2 * c)) ^ tierGet calc_modi t := by
  cases t <;> rfl

lemma modi_pos (t : Tier) : 0 < tierGet calc_modi t := by
  cases t <;> simp [tierGet, calc_modi_eq] <;> norm_num

lemma catch_p_bounds (c : ℝ) (h : 0.0015 < c) :
    0 < 1 - BASE_RATE / (2 * c) ∧ 1 - BASE_RATE / (2 * c) < 1 := by
  have hc : 0 < c := lt_trans (by norm_num) h
  constructor
  · have h1 : BASE_RATE / (2 * c) < 1 := by
      rw [BASE_RATE, div_lt_one (by linarith)]
      linarith
    linarith
  · have h2 : 0 < BASE_RATE / (2 * c) := by
      rw [BASE_RATE]; positivity
    linarith

lemma tier_prob_bounds (c : ℝ) (h : 0.0015 < c) (t : Tier) :
    0 < tierGet (calc_catch c) t ∧ tierGet (calc_catch c) t < 1 := by
  obtain ⟨hx0, hx1⟩ := catch_p_bounds c h
  rw [calc_catch_tier]
  have hm := modi_pos t
  have hlt : (1 - BASE_RATE / (2 * c)) ^ tierGet calc_modi t < 1 :=
    Real.rpow_lt_one hx0.le hx1 hm
  have hpos : 0 < (1 - BASE_RATE / (2 * c)) ^ tierGet calc_modi t :=
    Real.rpow_pos_of_pos hx0 _
  constructor <;> linarith

/-- C1: for every nonzero level coefficient CPM, calc_catch(CPM) returns
one capture probability per throw tier equal to
1 - (1 - BASE_RATE / (2 * CPM)) ^ modifier[tier], where modifier[tier] is
the product BALL * BERRY * CURVE * MEDAL * ENCOUNTER * THROW[tier]
produced by calc_modi for each of the four tiers NONE, NICE, GREAT,
EXCELENT. -/
theorem calc_catch_matches_formula (c : ℝ) (_hc : c ≠ 0) :
    calc_catch c =
      (1 - (1 - BASE_RATE / (2 * c)) ^ (BALL * BERRY * CURVE * MEDAL * ENCOUNTER * THROW Tier.NONE),
       1 - (1 - BASE_RATE / (2 * c)) ^ (BALL * BERRY * CURVE * MEDAL * ENCOUNTER * THROW Tier.NICE),
       1 - (1 - BASE_RATE / (2 * c)) ^ (BALL * BERRY * CURVE * MEDAL * ENCOUNTER * THROW Tier.GREAT),
       1 - (1 - BASE_RATE / (2 * c)) ^ (BALL * BERRY * CURVE * MEDAL * ENCOUNTER * THROW Tier.EXCELENT)) ∧
    calc_modi =
      (BALL * BERRY * CURVE * MEDAL * ENCOUNTER * THROW Tier.NONE,
       BALL * BERRY * CURVE * MEDAL * ENCOUNTER * THROW Tier.NICE,
       BALL * BERRY * CURVE * MEDAL * ENCOUNTER * THROW Tier.GREAT,
       BALL * BERRY * CURVE * MEDAL * ENCOUNTER * THROW Tier.EXCELENT) :=
  ⟨rfl, rfl⟩

theorem calc_catch_matches_formula_witness :
    calc_catch 0.094 =
      (1 - (1 - BASE_RATE / (2 * 0.094)) ^ (BALL * BERRY * CURVE * MEDAL * ENCOUNTER * THROW Tier.NONE),
       1 - (1 - BASE_RATE / (2 * 0.094)) ^ (BALL * BERRY * CURVE * MEDAL * ENCOUNTER * THROW Tier.NICE),
       1 - (1 - BASE_RATE / (2 * 0.094)) ^ (BALL * BERRY * CURVE * MEDAL * ENCOUNTER * THROW Tier.GREAT),
       1 - (1 - BASE_RATE / (2 * 0.094)) ^ (BALL * BERRY * CURVE * MEDAL * ENCOUNTER * THROW Tier.EXCELENT)) ∧
    calc_modi =
      (BALL * BERRY * CURVE * MEDAL * ENCOUNTER * THROW Tier.NONE,
       BALL * BERRY * CURVE * MEDAL * ENCOUNTER * THROW Tier.NICE,
       BALL * BERRY * CURVE * MEDAL * ENCOUNTER * THROW Tier.GREAT,
       BALL * BERRY * CURVE * MEDAL * ENCOUNTER * THROW Tier.EXCELENT) :=
  calc_catch_matches_formula 0.094 (by norm_num)

end

end BirdCalc

namespace BirdCalc

noncomputable section

/-- The CaptureProbabilityCalculator contract of the spec, parametrised
over its three inputs: `p = 1 - (1 - baseRate / (2 * levelCoefficient)) ^
modifier`.  The source's calc_catch is this formula with
baseRate = BASE_RATE and the four modifiers of calc_modi. -/
def CaptureProbability (baseRate levelCoefficient modifier : ℝ) : ℝ :=
  1 - (1 - baseRate / (2 * levelCoefficient)) ^ modifier

lemma calc_catch_eq_CaptureProbability (c : ℝ) :
    calc_catch c =
      (CaptureProbability BASE_RATE c 11.9, CaptureProbability BASE_RATE c 14.28,
       CaptureProbability BASE_RATE c 17.85, CaptureProbability BASE_RATE c 22.61) := by
  simp only [calc_catch, calc_modi_eq, CaptureProbability]

/-- C2 counterexample: the inputs baseRate = 1 (a probability in [0,1]),
levelCoefficient = 0.2 (in (0,1]) and modifier = 2 (the product of the
documented multiplier ranges with every factor 1 except a throw
multiplier of 2) are all inside the spec's documented ranges, yet the
capture probability formula evaluates to -1.25, outside [0,1]. -/
theorem capture_prob_range_cex :
    ((0:ℝ) ≤ 1 ∧ (1:ℝ) ≤ 1) ∧
    ((0:ℝ) < 0.2 ∧ (0.2:ℝ) ≤ 1) ∧
    ((2:ℝ) = 1 * 1 * 1 * 1 * 1 * 2 ∧ (1:ℝ) ≤ 2 ∧ (2:ℝ) ≤ 2) ∧
    CaptureProbability 1 0.2 2 = -1.25 := by
  refine ⟨⟨by norm_num, by norm_num⟩, ⟨by norm_num, by norm_num⟩,
    ⟨by norm_num, by norm_num, by norm_num⟩, ?_⟩
  unfold CaptureProbability
  rw [show (1:ℝ) - 1 / (2 * 0.2) = -1.5 by norm_num, Real.rpow_two]
  norm_num

/-- C2 (amended): for a base rate in [0,1], a level coefficient in
(0,1], and a modifier that is a product of multipliers from the
documented ranges (each at least 1), and additionally
baseRate ≤ 2 * levelCoefficient — without which the base of the
exponentiation turns negative and the formula leaves [0,1] — the capture
probability lies in [0,1]. -/
theorem capture_prob_in_unit_interval
    (baseRate levelCoefficient modifier ball berry curve medal encounter thr : ℝ)
    (hb0 : 0 ≤ baseRate) (_hb1 : baseRate ≤ 1)
    (hl0 : 0 < levelCoefficient) (_hl1 : levelCoefficient ≤ 1)
    (hguard : baseRate ≤ 2 * levelCoefficient)
    (hm : modifier = ball * berry * curve * medal * encounter * thr)
    (hball : 1 ≤ ball) (hberry : 1 ≤ berry) (hcurve : 1 ≤ curve)
    (hmedal : 1 ≤ medal) (henc : 1 ≤ encounter) (hthr : 1 ≤ thr) :
    0 ≤ CaptureProbability baseRate levelCoefficient modifier ∧
    CaptureProbability baseRate levelCoefficient modifier ≤ 1 := by
  have h2l : 0 < 2 * levelCoefficient := by linarith
  have hq0 : 0 ≤ baseRate / (2 * levelCoefficient) := div_nonneg hb0 h2l.le
  have hq1 : baseRate / (2 * levelCoefficient) ≤ 1 := by
    rw [div_le_one h2l]; exact hguard
  have hx0 : 0 ≤ 1 - baseRate / (2 * levelCoefficient) := by linarith
  have hx1 : 1 - baseRate / (2 * levelCoefficient) ≤ 1 := by linarith
  have hm1 : (1:ℝ) ≤ modifier := by
    rw [hm]
    have s1 : (1:ℝ) ≤ ball * berry := by nlinarith
    have s2 : (1:ℝ) ≤ ball * berry * curve := by nlinarith
    have s3 : (1:ℝ) ≤ ball * berry * curve * medal := by nlinarith
    have s4 : (1:ℝ) ≤ ball * berry * curve * medal * encounter := by nlinarith
    nlinarith
  have hm0 : (0:ℝ) ≤ modifier := by linarith
  have hpow1 : (1 - baseRate / (2 * levelCoefficient)) ^ modifier ≤ 1 :=
    Real.rpow_le_one hx0 hx1 hm0
  have hpow0 : 0 ≤ (1 - baseRate / (2 * levelCoefficient)) ^ modifier :=
    Real.rpow_nonneg hx0 modifier
  unfold CaptureProbability
  constructor <;> linarith

theorem capture_prob_in_unit_interval_witness :
    0 ≤ CaptureProbability 0.003 0.094 11.9 ∧ CaptureProbability 0.003 0.094 11.9 ≤ 1 :=
  capture_prob_in_unit_interval 0.003 0.094 11.9 2 2.5 1.7 1.4 1 1
    (by norm_num) (by norm_num) (by norm_num) (by norm_num) (by norm_num)
    (by norm_num) (by norm_num) (by norm_num) (by norm_num) (by norm_num)
    (by norm_num) (by norm_num)

/-- C3: for 0 < p < 1, calc_throws(p) is
log(1 - SUCCESS_PERC) / log(1 - p); at p = 0 it falls back to BASE_RATE
in place of the zero rate; and calc_throws(0.5) with the 99 percent
target equals log(0.01)/log(0.5), which lies between 6.6 and 6.7
(approximately 6.64). -/
theorem calc_throws_spec (p : ℝ) (h0 : 0 < p) (_h1 : p < 1) :
    calc_throws p = Real.log (1 - SUCCESS_PERC) / Real.log (1 - p) ∧
    calc_throws 0 = Real.log (1 - SUCCESS_PERC) / Real.log (1 - BASE_RATE) ∧
    calc_throws 0.5 = Real.log 0.01 / Real.log 0.5 ∧
    6.6 < calc_throws 0.5 ∧ calc_throws 0.5 < 6.7 := by
  have hgen : ∀ q : ℝ, q ≠ 0 →
      calc_throws q = Real.log (1 - SUCCESS_PERC) / Real.log (1 - q) := by
    intro q hq
    simp only [calc_throws, P_MIN_SUCCESS_PERC, if_neg hq]
  have hhalf : calc_throws 0.5 = Real.log 0.01 / Real.log 0.5 := by
    rw [hgen 0.5 (by norm_num)]
    norm_num [SUCCESS_PERC]
  have e1 : Real.log 0.01 = -Real.log 100 := by
    rw [show (0.01:ℝ) = (100:ℝ)⁻¹ by norm_num, Real.log_inv]
  have e2 : Real.log 0.5 = -Real.log 2 := by
    rw [show (0.5:ℝ) = (2:ℝ)⁻¹ by norm_num, Real.log_inv]
  have hl2 : 0 < Real.log 2 := Real.log_pos (by norm_num)
  have key1 : 33 * Real.log 2 < 5 * Real.log 100 := by
    have hcmp := Real.log_lt_log (by positivity : (0:ℝ) < 2 ^ (33:ℕ))
      (by norm_num : (2:ℝ) ^ (33:ℕ) < 100 ^ (5:ℕ))
    rw [Real.log_pow, Real.log_pow] at hcmp
    push_cast at hcmp
    linarith
  have key2 : 10 * Real.log 100 < 67 * Real.log 2 := by
    have hcmp := Real.log_lt_log (by positivity : (0:ℝ) < 100 ^ (10:ℕ))
      (by norm_num : (100:ℝ) ^ (10:ℕ) < 2 ^ (67:ℕ))
    rw [Real.log_pow, Real.log_pow] at hcmp
    push_cast at hcmp
    linarith
  have hratio : calc_throws 0.5 = Real.log 100 / Real.log 2 := by
    rw [hhalf, e1, e2, neg_div_neg_eq]
  refine ⟨hgen p h0.ne', ?_, hhalf, ?_, ?_⟩
  · simp only [calc_throws, P_MIN_SUCCESS_PERC, eq_self_iff_true, if_true]
  · rw [hratio, lt_div_iff hl2]
    linarith
  · rw [hratio, div_lt_iff hl2]
    linarith

theorem calc_throws_spec_witness :
    calc_throws 0.5 = Real.log (1 - SUCCESS_PERC) / Real.log (1 - 0.5) ∧
    calc_throws 0 = Real.log (1 - SUCCESS_PERC) / Real.log (1 - BASE_RATE) ∧
    calc_throws 0.5 = Real.log 0.01 / Real.log 0.5 ∧
    6.6 < calc_throws 0.5 ∧ calc_throws 0.5 < 6.7 :=
  calc_throws_spec 0.5 (by norm_num) (by norm_num)

end

end BirdCalc

namespace BirdCalc

noncomputable section

/-- C4 counterexample: at the negative level coefficient -0.094 the
calc_catch arithmetic is carried out and silently yields a negative
(out-of-range) NONE-tier capture probability; no input or domain error
is signalled before the computation. -/
theorem calc_catch_no_guard_cex :
    (-0.094 : ℝ) < 0 ∧ (calc_catch (-0.094)).1 < 0 := by
  refine ⟨by norm_num, ?_⟩
  have hx : (1 : ℝ) - BASE_RATE / (2 * (-0.094)) = 191 / 188 := by
    rw [BASE_RATE]; norm_num
  have h1 : (calc_catch (-0.094)).1 = 1 - ((191:ℝ) / 188) ^ (11.9:ℝ) := by
    rw [calc_catch_eq_CaptureProbability, CaptureProbability, hx]
  have h2 : (1:ℝ) < ((191:ℝ) / 188) ^ (11.9:ℝ) :=
    (Real.one_lt_rpow_iff_of_pos (by norm_num)).mpr (Or.inl ⟨by norm_num, by norm_num⟩)
  rw [h1]
  linarith

/-- C4 (amended): calc_catch performs no validation of the level
coefficient: for every negative coefficient it performs the arithmetic
and silently returns out-of-range (negative) capture probabilities for
all four throw tiers, instead of signalling an input or domain error; a
zero coefficient is stopped only by the division itself. -/
theorem calc_catch_neg_coeff_silent (c : ℝ) (hc : c < 0) :
    ∀ t : Tier, tierGet (calc_catch c) t < 0 := by
  intro t
  have hdiv : BASE_RATE / (2 * c) < 0 :=
    div_neg_of_pos_of_neg (by rw [BASE_RATE]; norm_num) (by linarith)
  have hx : (1:ℝ) < 1 - BASE_RATE / (2 * c) := by linarith
  have h2 : (1:ℝ) < (1 - BASE_RATE / (2 * c)) ^ tierGet calc_modi t :=
    (Real.one_lt_rpow_iff_of_pos (by linarith)).mpr (Or.inl ⟨hx, modi_pos t⟩)
  rw [calc_catch_tier]
  linarith

theorem calc_catch_neg_coeff_silent_witness :
    tierGet (calc_catch (-1)) Tier.NONE < 0 :=
  calc_catch_neg_coeff_silent (-1) (by norm_num) Tier.NONE

/-- The capture probability main works with for a given level and throw
tier: the tier's component of calc_catch at the level's CPM. -/
def level_catch (L : Level) (t : Tier) : ℝ := tierGet (calc_catch (CPM L)) t

/-- The expected number of throws main works with for a given level and
throw tier: the tier's component of calc_avg applied to the four
capture probabilities of the level, exactly as in main. -/
def level_avg (L : Level) (t : Tier) : ℝ :=
  tierGet (calc_avg (calc_catch (CPM L)).1 (calc_catch (CPM L)).2.1
    (calc_catch (CPM L)).2.2.1 (calc_catch (CPM L)).2.2.2) t

lemma level_avg_eq (L : Level) (t : Tier) : level_avg L t = 1 / level_catch L t := by
  cases t <;> rfl

lemma cpm_big (L : Level) : 0.0015 < CPM L := by
  cases L <;> norm_num [CPM]

lemma tier_chain (c : ℝ) (h : 0.0015 < c) :
    tierGet (calc_catch c) Tier.NONE < tierGet (calc_catch c) Tier.NICE ∧
    tierGet (calc_catch c) Tier.NICE < tierGet (calc_catch c) Tier.GREAT ∧
    tierGet (calc_catch c) Tier.GREAT < tierGet (calc_catch c) Tier.EXCELENT := by
  obtain ⟨hx0, hx1⟩ := catch_p_bounds c h
  have step : ∀ m m' : ℝ, m < m' →
      1 - (1 - BASE_RATE / (2 * c)) ^ m < 1 - (1 - BASE_RATE / (2 * c)) ^ m' := by
    intro m m' hmm
    have := Real.rpow_lt_rpow_of_exponent_gt hx0 hx1 hmm
    linarith
  refine ⟨?_, ?_, ?_⟩ <;>
    · rw [calc_catch_tier, calc_catch_tier]
      simp only [calc_modi_eq, tierGet]
      exact step _ _ (by norm_num)

/-- C5: for every level coefficient in the CPM table (with the fixed
base rate), the capture probabilities of calc_catch strictly increase
across the throw tiers NONE < NICE < GREAT < EXCELENT, and the
expected-attempts values of calc_avg strictly decrease across the same
tiers. -/
theorem catch_monotone_in_tier (L : Level) :
    (level_catch L Tier.NONE < level_catch L Tier.NICE ∧
     level_catch L Tier.NICE < level_catch L Tier.GREAT ∧
     level_catch L Tier.GREAT < level_catch L Tier.EXCELENT) ∧
    (level_avg L Tier.NICE < level_avg L Tier.NONE ∧
     level_avg L Tier.GREAT < level_avg L Tier.NICE ∧
     level_avg L Tier.EXCELENT < level_avg L Tier.GREAT) := by
  have hc := cpm_big L
  obtain ⟨s1, s2, s3⟩ := tier_chain (CPM L) hc
  have b0 := tier_prob_bounds (CPM L) hc Tier.NONE
  have b1 := tier_prob_bounds (CPM L) hc Tier.NICE
  have b2 := tier_prob_bounds (CPM L) hc Tier.GREAT
  refine ⟨⟨s1, s2, s3⟩, ?_, ?_, ?_⟩ <;>
    rw [level_avg_eq, level_avg_eq]
  · exact one_div_lt_one_div_of_lt b0.1 s1
  · exact one_div_lt_one_div_of_lt b1.1 s2
  · exact one_div_lt_one_div_of_lt b2.1 s3

lemma catch_lt_of_cpm_lt (c c' : ℝ) (h : 0.0015 < c) (hcc : c < c') (t : Tier) :
    tierGet (calc_catch c') t < tierGet (calc_catch c) t := by
  have h' : 0.0015 < c' := lt_trans h hcc
  obtain ⟨hx0, _⟩ := catch_p_bounds c h
  have hxx : 1 - BASE_RATE / (2 * c) < 1 - BASE_RATE / (2 * c') := by
    have hstep : BASE_RATE / (2 * c') < BASE_RATE / (2 * c) :=
      div_lt_div_of_pos_left (by rw [BASE_RATE]; norm_num) (by linarith) (by linarith)
    linarith
  rw [calc_catch_tier, calc_catch_tier]
  have := Real.rpow_lt_rpow hx0.le hxx (modi_pos t)
  linarith

/-- C6: for every fixed throw tier, moving up the CPM table across the
levels 1, 10, 20, 30 (CPM 0.094, 0.4225, 0.5974, 0.7317) strictly
decreases the capture probability returned by calc_catch. -/
theorem catch_antitone_in_level (t : Tier) :
    level_catch Level.L10 t < level_catch Level.L1 t ∧
    level_catch Level.L20 t < level_catch Level.L10 t ∧
    level_catch Level.L30 t < level_catch Level.L20 t := by
  refine ⟨?_, ?_, ?_⟩ <;>
    exact catch_lt_of_cpm_lt _ _ (by norm_num [CPM]) (by norm_num [CPM]) t

/-- C7: calc_avg returns exactly 1/p for each tier's probability (its
inputs being capture probabilities in (0,1]); in particular at
probability 0.5 each component is exactly 2.  (At p = 0 the Python
division raises ZeroDivisionError, i.e. the operation is undefined
there.) -/
theorem calc_avg_spec (p_none p_nice p_great p_excelent : ℝ)
    (_h0 : 0 < p_none) (_h0' : p_none ≤ 1) (_h1 : 0 < p_nice) (_h1' : p_nice ≤ 1)
    (_h2 : 0 < p_great) (_h2' : p_great ≤ 1) (_h3 : 0 < p_excelent) (_h3' : p_excelent ≤ 1) :
    calc_avg p_none p_nice p_great p_excelent =
      (1 / p_none, 1 / p_nice, 1 / p_great, 1 / p_excelent) ∧
    calc_avg 0.5 0.5 0.5 0.5 = (2, 2, 2, 2) := by
  refine ⟨rfl, ?_⟩
  simp only [calc_avg]
  norm_num

theorem calc_avg_spec_witness :
    calc_avg 0.5 0.5 0.5 0.5 = (1 / 0.5, 1 / 0.5, 1 / 0.5, 1 / 0.5) ∧
    calc_avg 0.5 0.5 0.5 0.5 = (2, 2, 2, 2) :=
  calc_avg_spec 0.5 0.5 0.5 0.5 (by norm_num) (by norm_num) (by norm_num) (by norm_num)
    (by norm_num) (by norm_num) (by norm_num) (by norm_num)

end

end BirdCalc

namespace BirdCalc

noncomputable section

lemma pyround_eq_of_near (x : ℝ) (n : ℤ)
    (h1 : (n : ℝ) - 1 / 2 < x) (h2 : x < (n : ℝ) + 1 / 2) :
    pyround x = n := by
  unfold pyround
  have hfr : Int.fract x ≠ 1 / 2 := by
    intro h
    have hx : x = (⌊x⌋ : ℝ) + 1 / 2 := by
      have hdef : Int.fract x = x - ⌊x⌋ := rfl
      rw [hdef] at h
      linarith
    have h3 : ((n : ℝ)) - 1 < (⌊x⌋ : ℝ) := by linarith
    have h4 : ((⌊x⌋ : ℝ)) < n := by linarith
    have h5 : (n : ℤ) - 1 < ⌊x⌋ := by exact_mod_cast h3
    have h6 : ⌊x⌋ < n := by exact_mod_cast h4
    omega
  rw [if_neg hfr, round_eq, Int.floor_eq_iff]
  constructor
  · linarith
  · linarith

lemma q_bounds :
    (0.825:ℝ) < (185 / 188 : ℝ) ^ (11.9:ℝ) ∧ (185 / 188 : ℝ) ^ (11.9:ℝ) < 0.835 := by
  have hq0 : (0:ℝ) ≤ (185 / 188 : ℝ) ^ (11.9:ℝ) := Real.rpow_nonneg (by norm_num) _
  have key : ((185 / 188 : ℝ) ^ (11.9:ℝ)) ^ (10:ℕ) = (185 / 188 : ℝ) ^ (119:ℕ) := by
    rw [← Real.rpow_natCast ((185 / 188 : ℝ) ^ (11.9:ℝ)) 10, ← Real.rpow_mul (by norm_num),
      ← Real.rpow_natCast (185 / 188 : ℝ) 119]
    norm_num
  constructor
  · apply lt_of_pow_lt_pow_left 10 hq0
    rw [key]
    norm_num
  · apply lt_of_pow_lt_pow_left 10 (by norm_num : (0:ℝ) ≤ (0.835:ℝ))
    rw [key]
    norm_num

lemma level1_none_catch :
    (calc_catch (CPM Level.L1)).1 = 1 - (185 / 188 : ℝ) ^ (11.9:ℝ) := by
  rw [show CPM Level.L1 = 0.094 from rfl, calc_catch_eq_CaptureProbability]
  show CaptureProbability BASE_RATE 0.094 11.9 = _
  rw [CaptureProbability,
    show (1:ℝ) - BASE_RATE / (2 * 0.094) = 185 / 188 by rw [BASE_RATE]; norm_num]

lemma level1_none_bounds :
    0.165 < (calc_catch (CPM Level.L1)).1 ∧ (calc_catch (CPM Level.L1)).1 < 0.175 := by
  obtain ⟨hq1, hq2⟩ := q_bounds
  rw [level1_none_catch]
  constructor <;> linarith

lemma level1_none_percent : pyround ((calc_catch (CPM Level.L1)).1 * 100) = 17 := by
  obtain ⟨hp1, hp2⟩ := level1_none_bounds
  apply pyround_eq_of_near
  · push_cast
    linarith
  · push_cast
    linarith

lemma level1_none_avg :
    pyround (calc_avg (calc_catch (CPM Level.L1)).1 (calc_catch (CPM Level.L1)).2.1
      (calc_catch (CPM Level.L1)).2.2.1 (calc_catch (CPM Level.L1)).2.2.2).1 = 6 := by
  obtain ⟨hp1, hp2⟩ := level1_none_bounds
  have havg : (calc_avg (calc_catch (CPM Level.L1)).1 (calc_catch (CPM Level.L1)).2.1
      (calc_catch (CPM Level.L1)).2.2.1 (calc_catch (CPM Level.L1)).2.2.2).1 =
      1 / (calc_catch (CPM Level.L1)).1 := rfl
  rw [havg]
  have hub : 1 / (calc_catch (CPM Level.L1)).1 < 1 / (0.165:ℝ) :=
    one_div_lt_one_div_of_lt (by norm_num) hp1
  have hlb : 1 / (0.175:ℝ) < 1 / (calc_catch (CPM Level.L1)).1 :=
    one_div_lt_one_div_of_lt (by linarith) hp2
  have c1 : (5.5:ℝ) < 1 / (0.175:ℝ) := by norm_num
  have c2 : (1:ℝ) / (0.165:ℝ) < 6.5 := by norm_num
  apply pyround_eq_of_near
  · push_cast
    linarith
  · push_cast
    linarith

/-- The table-cell format exactly as the claim words it: the percentage
immediately followed by the percent sign, a bar, then the rounded
average. -/
def spec_cell (prob avg : ℝ) : String :=
  toString (pyround (prob * 100)) ++ "% | " ++ (toString (pyround avg) ++ " Av.")

/-- C8 counterexample: the NONE-tier cell of the level-1 row that main
prints evaluates to the text 17 % | 6 Av., which has a blank between
the percent value and the percent sign and therefore differs from the
format the claim states, which would give 17% | 6 Av. for this cell. -/
theorem table_cell_format_cex :
    table_cell (calc_catch (CPM Level.L1)).1
      (calc_avg (calc_catch (CPM Level.L1)).1 (calc_catch (CPM Level.L1)).2.1
        (calc_catch (CPM Level.L1)).2.2.1 (calc_catch (CPM Level.L1)).2.2.2).1
      = "17 % | 6 Av." ∧
    spec_cell (calc_catch (CPM Level.L1)).1
      (calc_avg (calc_catch (CPM Level.L1)).1 (calc_catch (CPM Level.L1)).2.1
        (calc_catch (CPM Level.L1)).2.2.1 (calc_catch (CPM Level.L1)).2.2.2).1
      = "17% | 6 Av." ∧
    ("17 % | 6 Av." : String) ≠ "17% | 6 Av." := by
  have h17 := level1_none_percent
  have h6 := level1_none_avg
  refine ⟨?_, ?_, by decide⟩
  · simp only [table_cell, round_catch, round_avg]
    rw [h17, h6]
    rfl
  · simp only [spec_cell]
    rw [h17, h6]
    rfl

/-- C8 (amended): main prints one row per level of the fixed level set,
in order; every table cell shows the capture probability rounded to the
nearest whole percent and the expected attempts rounded to the nearest
whole number in the format percent-blank-% | n Av. (the source puts a
blank between the percent value and the percent sign); and each row
carries two trailing figures, the attempts needed for the SUCCESS_PERC
(99 percent) target under the best (EXCELENT) and worst (NONE) throw
tiers. -/
theorem table_format (L : Level) :
    row_string L =
      row_prefix L
      ++ "\t" ++ table_cell (level_catch L Tier.NONE) (level_avg L Tier.NONE)
      ++ "\t\t" ++ table_cell (level_catch L Tier.NICE) (level_avg L Tier.NICE)
      ++ "\t\t" ++ table_cell (level_catch L Tier.GREAT) (level_avg L Tier.GREAT)
      ++ "\t\t" ++ table_cell (level_catch L Tier.EXCELENT) (level_avg L Tier.EXCELENT)
      ++ "\t\t" ++ toString (pyround (calc_throws (level_catch L Tier.EXCELENT)))
      ++ " EXCELENT throws / "
      ++ toString (pyround (calc_throws (level_catch L Tier.NONE)))
      ++ " NORMAL throws" ∧
    (∀ prob avg : ℝ, table_cell prob avg =
      toString (pyround (prob * 100)) ++ " % | " ++ (toString (pyround avg) ++ " Av.")) ∧
    main_output =
      header_block ++ "\n" ++ column_header_block ++ "\n"
      ++ row_string Level.L1 ++ "\n" ++ row_string Level.L10 ++ "\n"
      ++ row_string Level.L20 ++ "\n" ++ row_string Level.L30 ++ "\n"
      ++ disclaimer_block ++ "\n" ++ "\n" := by
  refine ⟨rfl, ?_, rfl⟩
  intro prob avg
  simp only [table_cell, round_catch, round_avg]
  rw [String.append_assoc (toString (pyround (prob * 100))) " %" " | "]
  rfl

/-- C9: the program's standard output is a deterministic function of
the baked-in constants.  The source reads no input (the interactive
branch is commented out), no clock and no randomness, so an execution
is modelled as a function of a dummy run token, and any two runs
produce the identical output text. -/
theorem program_output_deterministic (r1 r2 : Unit) :
    program_run r1 = program_run r2 := rfl

/-- C10: with the baked-in constants, every capture probability main
computes is strictly between 0 and 1; consequently the reciprocal taken
by calc_avg never divides by zero, the catch_rate == 0 fallback branch
of calc_throws is never taken during main, and the logarithm in
calc_throws is applied to an argument 1 - p that lies in (0,1). -/
theorem main_probabilities_safe (L : Level) (t : Tier) :
    (0 < level_catch L t ∧ level_catch L t < 1) ∧
    level_catch L t ≠ 0 ∧
    level_avg L t = 1 / level_catch L t ∧
    calc_throws (level_catch L t) =
      Real.log P_MIN_SUCCESS_PERC / Real.log (1 - level_catch L t) ∧
    (0 < 1 - level_catch L t ∧ 1 - level_catch L t < 1) := by
  have hb := tier_prob_bounds (CPM L) (cpm_big L) t
  have hb' : 0 < level_catch L t ∧ level_catch L t < 1 := hb
  have hp : level_catch L t ≠ 0 := hb'.1.ne'
  refine ⟨hb', hp, level_avg_eq L t, ?_, ?_⟩
  · simp only [calc_throws, if_neg hp]
  · constructor
    · linarith [hb'.2]
    · linarith [hb'.1]

end

end BirdCalc
